import Mathlib

/-!
Verification of the eurochef EDB extraction drivers.

Shallow embedding of the command drivers in
`src/eurochef/src/edb/textures.rs` (`execute_command`) and
`src/eurochef/cli/src/edb/maps.rs` (`execute_command`).

Modelling conventions:
* A file is a `List Nat` of bytes; its length is the known file size.
* Rust `anyhow` errors (`?` / `bail!`) become `Outcome.err`; Rust panics
  (`expect`, `unwrap`, out-of-bounds slice indexing) become `Outcome.panic`.
* The drivers are embedded as pure functions that also emit an ordered
  trace of observable side effects (`Event`): seeks, issued reads, buffer
  allocations, error reports, decoded frames, saved images, file writes.
* `binrw` record parsing lives in the `eurochef-edb` crate, whose parser
  sources are not part of this development; each driver therefore takes
  the record parsers as explicit function arguments (`parseTexture`,
  `readEntity`, `readMap`, `parseHeader`) returning `Option`/parsed
  structures, exactly at the call sites where the Rust driver invokes
  `read_type` / `read_type_args`.  Everything the drivers themselves do
  (seeking, bounds handling, error handling, looping, buffer management,
  trigger resolution, zone resolution) is embedded from the Rust source.
-/

namespace Eurochef

/-- Byte order selected by the leading marker byte
(`textures.rs` line 34). -/
inductive Endian where
  | big
  | little
deriving DecidableEq

/-- Result of running (part of) a driver.  `err` models an `anyhow` error
propagated with `?` or raised with `bail!`; `panic` models a Rust panic
(`expect`, `unwrap`, out-of-bounds indexing). -/
inductive Outcome (α : Type) where
  | ok : α → Outcome α
  | err : String → Outcome α
  | panic : String → Outcome α
deriving DecidableEq

/-- Observable side effects of the drivers, in program order. -/
inductive Event where
  /-- Event for `file.seek(SeekFrom::Start(off))`. -/
  | seek (off : Nat)
  /-- a `read_type` / `read_type_args` record read at `off` using `endian` -/
  | readTyped (off : Nat) (endian : Endian)
  /-- Event for a `file.read_exact` issued at absolute offset `off` for `len` bytes. -/
  | readAttempt (off len : Nat)
  /-- Event for a `texture_decoder.get_data_size(w, h, d, format)` call. -/
  | calcSize (w h d fmt : Nat)
  /-- Event for `data.resize(size, 0u8)`: allocation of the raw-bytes buffer. -/
  | alloc (size : Nat)
  /-- Event for the `println!("Failed to read texture ...")` report for a record. -/
  | reportError (hashcode : Nat)
  /-- the decoded RGBA output buffer produced for frame `frame` -/
  | frameDecoded (frame : Nat) (buf : List Nat)
  /-- Event for `img.save(...)` of frame `frame` of record `hashcode`. -/
  | save (hashcode frame : Nat) (img : List Nat)
  /-- Event for `warn!("File does not contain any maps!")`. -/
  | warn
  /-- writing the `.ecm` output file for map `hashcode` -/
  | writeFile (hashcode : Nat)
deriving DecidableEq

/-! ## Shared data model (headers, pointers) -/

/-- One entry of `header.texture_list.data`: the fields of `t.common`
used by `textures.rs` (`address`, `hashcode`). -/
structure TextureListEntry where
  address : Nat
  hashcode : Nat
deriving DecidableEq

/-- One entry of `header.map_list` (`m.address`, `m.hashcode`). -/
structure MapListEntry where
  address : Nat
  hashcode : Nat
deriving DecidableEq

/-- One entry of `header.refpointer_list`: a single absolute address. -/
structure RefPointer where
  address : Nat
deriving DecidableEq

/-- The fields of `EXGeoHeader` consumed by the two drivers. -/
structure EXGeoHeader where
  version : Nat
  texture_list : List TextureListEntry
  map_list : List MapListEntry
  refpointer_list : List RefPointer
deriving DecidableEq

/-- Reference resolution as performed by `maps.rs` line 82:
`header.refpointer_list[z.entity_refptr as usize].address`.
Rust slice indexing panics when the index is out of bounds. -/
def resolveRef (refpointer_list : List RefPointer) (i : Nat) : Outcome Nat :=
  match refpointer_list[i]? with
  | some rp => Outcome.ok rp.address
  | none => Outcome.panic ("index out of bounds")

/-! ## Entities and zones (maps.rs lines 81-93) -/

/-- The mapzone entity payload.  Its fields are decoded by
`eurochef-edb` and passed through `maps.rs` verbatim; they are carried
opaquely as a single value. -/
structure EXGeoMapZoneEntity where
  contents : Nat
deriving DecidableEq

/-- A decoded entity.  `maps.rs` only distinguishes the `MapZone`
variant from every other variant (`if let EXGeoEntity::MapZone`), so the
non-MapZone variants are collapsed into `other` carrying their tag. -/
inductive EXGeoEntity where
  | mapZone : EXGeoMapZoneEntity → EXGeoEntity
  | other : Nat → EXGeoEntity
deriving DecidableEq

/-- A zone descriptor of `map.zones`: the driver reads only
`z.entity_refptr`. -/
structure ZoneDesc where
  entity_refptr : Nat
deriving DecidableEq

/-- Processing of one zone (`maps.rs` lines 81-93): resolve the zone's
reference index by direct slice indexing, seek to the resolved address,
read an `EXGeoEntity` there (`readEntity`, with `none` modelling a
`binrw` read error propagated by `?`), and require the `MapZone`
variant; any other variant triggers
`bail!("Refptr entity does not have a mapzone entity!")`. -/
def processZone (refpointer_list : List RefPointer)
    (readEntity : Nat → Option EXGeoEntity) (z : ZoneDesc) :
    List Event × Outcome EXGeoMapZoneEntity :=
  match resolveRef refpointer_list z.entity_refptr with
  | Outcome.panic m => ([], Outcome.panic m)
  | Outcome.err m => ([], Outcome.err m)
  | Outcome.ok entity_offset =>
    match readEntity entity_offset with
    | none => ([Event.seek entity_offset], Outcome.err ("Failed to read entity"))
    | some ent =>
      match ent with
      | EXGeoEntity.mapZone mapzone =>
        ([Event.seek entity_offset], Outcome.ok mapzone)
      | EXGeoEntity.other _ =>
        ([Event.seek entity_offset],
          Outcome.err ("Refptr entity does not have a mapzone entity!"))

/-- The `for z in &map.zones` loop: collects the mapzone entities in
order; the first failing zone aborts the whole map (`?` / `bail!`). -/
def processZones (refpointer_list : List RefPointer)
    (readEntity : Nat → Option EXGeoEntity) :
    List ZoneDesc → List Event × Outcome (List EXGeoMapZoneEntity)
  | [] => ([], Outcome.ok [])
  | z :: rest =>
    match processZone refpointer_list readEntity z with
    | (evs, Outcome.ok mz) =>
      match processZones refpointer_list readEntity rest with
      | (evs2, Outcome.ok l) => (evs ++ evs2, Outcome.ok (mz :: l))
      | (evs2, Outcome.err m) => (evs ++ evs2, Outcome.err m)
      | (evs2, Outcome.panic m) => (evs ++ evs2, Outcome.panic m)
    | (evs, Outcome.err m) => (evs, Outcome.err m)
    | (evs, Outcome.panic m) => (evs, Outcome.panic m)

/-! ## Triggers (maps.rs lines 95-138) -/

/-- One entry of `map.trigger_header.trigger_types`. -/
structure EXGeoTriggerType where
  trig_type : Nat
  trig_subtype : Nat
deriving DecidableEq

/-- The fields of a raw trigger (`t.trigger`) read by the driver.
`position`, `rotation` and `scale` are `f32` triples copied verbatim;
they are carried opaquely as single values. -/
structure EXGeoBaseTrigger where
  type_index : Nat
  debug : Nat
  game_flags : Nat
  trig_flags : Nat
  position : Nat
  rotation : Nat
  scale : Nat
  data : List Nat
  links : List Int
deriving DecidableEq

/-- One entry of `map.trigger_header.triggers` (`t.link_ref`,
`t.trigger`). -/
structure TriggerWrapper where
  link_ref : Int
  trigger : EXGeoBaseTrigger
deriving DecidableEq

/-- The exported trigger value built by `maps.rs` lines 103-121 (the
optional external trigger-name map of lines 123-135 is scoped out of the
core; without it the constructed strings are final). -/
structure UXGeoTrigger where
  link_ref : Int
  ttype : String
  tsubtype : Option String
  debug : Nat
  game_flags : Nat
  trig_flags : Nat
  position : Nat
  rotation : Nat
  scale : Nat
  extra_data : List Nat
  data : List Nat
  links : List Int
deriving DecidableEq

/-- Resolution of one trigger (`maps.rs` lines 95-121): the `(type,
subtype)` pair is looked up through
`map.trigger_header.trigger_types[trig.type_index as usize]` (a panic
when out of bounds), and the subtype is kept only when it is neither `0`
nor `0x42000001`. -/
def resolveTrigger (trigger_types : List EXGeoTriggerType)
    (t : TriggerWrapper) : Outcome UXGeoTrigger :=
  match trigger_types[t.trigger.type_index]? with
  | none => Outcome.panic ("index out of bounds")
  | some tt =>
    Outcome.ok
      { link_ref := t.link_ref
        ttype := "Trig_" ++ toString tt.trig_type
        tsubtype :=
          if tt.trig_subtype ≠ 0 ∧ tt.trig_subtype ≠ 0x42000001 then
            some ("TrigSub_" ++ toString tt.trig_subtype)
          else
            none
        debug := t.trigger.debug
        game_flags := t.trigger.game_flags
        trig_flags := t.trigger.trig_flags
        position := t.trigger.position
        rotation := t.trigger.rotation
        scale := t.trigger.scale
        extra_data := []
        data := t.trigger.data
        links := t.trigger.links }

/-- The `for t in map.trigger_header.triggers.iter()` loop. -/
def processTriggers (trigger_types : List EXGeoTriggerType) :
    List TriggerWrapper → Outcome (List UXGeoTrigger)
  | [] => Outcome.ok []
  | t :: rest =>
    match resolveTrigger trigger_types t with
    | Outcome.ok trig =>
      match processTriggers trigger_types rest with
      | Outcome.ok l => Outcome.ok (trig :: l)
      | Outcome.err m => Outcome.err m
      | Outcome.panic m => Outcome.panic m
    | Outcome.err m => Outcome.err m
    | Outcome.panic m => Outcome.panic m

/-! ## The map command driver (maps.rs lines 21-151) -/

/-- The fields of `EXGeoMap` consumed by the driver.  `paths`,
`placements` and `lights` are copied verbatim into the export and are
carried opaquely. -/
structure EXGeoMap where
  paths : List Nat
  placements : List Nat
  lights : List Nat
  zones : List ZoneDesc
  trigger_types : List EXGeoTriggerType
  triggers : List TriggerWrapper
deriving DecidableEq

/-- Processing of one map of `header.map_list` (`maps.rs` lines
66-146): seek to `m.address`, read an `EXGeoMap` (`readMap`, `none`
modelling a read error caught by `.context("Failed to read map")?`),
process its zones and triggers, then write the `.ecm` output file. -/
def processMap (refpointer_list : List RefPointer)
    (readEntity : Nat → Option EXGeoEntity)
    (readMap : Nat → Option EXGeoMap) (m : MapListEntry) :
    List Event × Outcome Unit :=
  match readMap m.address with
  | none => ([Event.seek m.address], Outcome.err ("Failed to read map"))
  | some map =>
    match processZones refpointer_list readEntity map.zones with
    | (evs, Outcome.err msg) => (Event.seek m.address :: evs, Outcome.err msg)
    | (evs, Outcome.panic msg) => (Event.seek m.address :: evs, Outcome.panic msg)
    | (evs, Outcome.ok _) =>
      match processTriggers map.trigger_types map.triggers with
      | Outcome.err msg => (Event.seek m.address :: evs, Outcome.err msg)
      | Outcome.panic msg => (Event.seek m.address :: evs, Outcome.panic msg)
      | Outcome.ok _ =>
        (Event.seek m.address :: evs ++ [Event.writeFile m.hashcode],
          Outcome.ok ())

/-- The `for m in &header.map_list` loop; a failing map aborts the
whole command (every error inside the loop body is propagated). -/
def mapsLoop (refpointer_list : List RefPointer)
    (readEntity : Nat → Option EXGeoEntity)
    (readMap : Nat → Option EXGeoMap) :
    List MapListEntry → List Event × Outcome Unit
  | [] => ([], Outcome.ok ())
  | m :: rest =>
    match processMap refpointer_list readEntity readMap m with
    | (evs, Outcome.ok _) =>
      match mapsLoop refpointer_list readEntity readMap rest with
      | (evs2, r) => (evs ++ evs2, r)
    | (evs, Outcome.err msg) => (evs, Outcome.err msg)
    | (evs, Outcome.panic msg) => (evs, Outcome.panic msg)

/-- The map extraction command (`maps.rs` `execute_command`), starting
after the header has been parsed by `EdbFile::new`: if the map list is
empty the command warns and returns `Ok(())` immediately; otherwise it
runs the entity extraction sub-command (modelled opaquely as its
outcome) and then the map loop. -/
def mapsCommand (header : EXGeoHeader)
    (readEntity : Nat → Option EXGeoEntity)
    (readMap : Nat → Option EXGeoMap)
    (entitiesOutcome : Outcome Unit) : List Event × Outcome Unit :=
  if header.map_list.length = 0 then
    ([Event.warn], Outcome.ok ())
  else
    match entitiesOutcome with
    | Outcome.err m => ([], Outcome.err m)
    | Outcome.panic m => ([], Outcome.panic m)
    | Outcome.ok _ =>
      mapsLoop header.refpointer_list readEntity readMap header.map_list

/-! ## The texture command driver (textures.rs lines 17-119) -/

/-- The fields of `EXGeoTexture` consumed by the driver.  `data_size`
is the optional explicitly stored size; `frame_offsets` holds the
absolute offsets (`frame_offset.offset_absolute()`) of the frames. -/
structure EXGeoTexture where
  width : Nat
  height : Nat
  depth : Nat
  format : Nat
  data_size : Option Nat
  frame_offsets : List Nat
deriving DecidableEq

/-- The per-platform codec created by
`texture::create_for_platform(platform)`.  `get_data_size` returns
`none` for an unsupported format.  `decode(data, output, w, h, d, fmt)`
writes through the `&mut [u8]` output slice, whose length cannot
change; the model returns the new slice contents, and `decode_len`
records the slice semantics that a successful in-place decode leaves
the output length unchanged. -/
structure TextureCodec where
  get_data_size : Nat → Nat → Nat → Nat → Option Nat
  decode : List Nat → List Nat → Nat → Nat → Nat → Nat → Option (List Nat)
  decode_len : ∀ data output w h d fmt res,
    decode data output w h d fmt = some res → res.length = output.length

/-- Model of `file.read_exact(&mut buf)` at absolute offset `off` for a buffer
of `len` bytes over a file of bytes `fileBytes`: succeeds exactly when
the requested range lies inside the file, returning the bytes read;
fails (with an end-of-file error) otherwise. -/
def readExact (fileBytes : List Nat) (off len : Nat) : Option (List Nat) :=
  if off + len ≤ fileBytes.length then
    some ((fileBytes.drop off).take len)
  else
    none

/-- Model of `image::RgbaImage::from_raw(w, h, buf)`: succeeds exactly when the
buffer length matches `w * h * 4` bytes of RGBA data. -/
def rgbaImageFromRaw (w h : Nat) (buf : List Nat) : Option (List Nat) :=
  if buf.length = w * h * 4 then some buf else none

/-- Processing of one frame (`textures.rs` lines 87-115): allocate the
output buffer of `width*height*depth*4` zero bytes, seek to the frame
offset and issue `read_exact` into the raw-bytes buffer `data`; a read
failure is only printed (`reportError`) and the buffer keeps its
previous contents.  Then run the platform decode into the output slice
(a decode error is propagated with `?`), build the image
(`from_raw`, panicking via `expect` when it fails) and save it.  On
success the (possibly updated) raw-bytes buffer is returned for reuse
by the next frame. -/
def processFrame (codec : TextureCodec) (fileBytes : List Nat)
    (tex : EXGeoTexture) (hashcode dataSize : Nat) (data : List Nat)
    (i frame_offset : Nat) : List Event × Outcome (List Nat) :=
  let output := List.replicate (tex.width * tex.height * tex.depth * 4) 0
  let readRes := readExact fileBytes frame_offset dataSize
  let dataNow := readRes.getD data
  let ev0 := [Event.seek frame_offset, Event.readAttempt frame_offset dataSize]
    ++ (if readRes.isNone then [Event.reportError hashcode] else [])
  match codec.decode dataNow output tex.width tex.height tex.depth tex.format with
  | none => (ev0, Outcome.err ("Failed to decode texture"))
  | some decoded =>
    match rgbaImageFromRaw tex.width tex.height decoded with
    | none =>
      (ev0 ++ [Event.frameDecoded i decoded],
        Outcome.panic ("Failed to load decompressed texture data"))
    | some img =>
      (ev0 ++ [Event.frameDecoded i decoded, Event.save hashcode i img],
        Outcome.ok dataNow)

/-- The `for (i, frame_offset) in tex.frame_offsets.iter().enumerate()`
loop, threading the reused raw-bytes buffer; a frame error or panic
aborts the whole command. -/
def processFramesAux (codec : TextureCodec) (fileBytes : List Nat)
    (tex : EXGeoTexture) (hashcode dataSize : Nat) :
    Nat → List Nat → List Nat → List Event × Outcome Unit
  | _, _, [] => ([], Outcome.ok ())
  | i, data, fo :: rest =>
    match processFrame codec fileBytes tex hashcode dataSize data i fo with
    | (evs, Outcome.ok dataNext) =>
      match processFramesAux codec fileBytes tex hashcode dataSize
          (i + 1) dataNext rest with
      | (evs2, r) => (evs ++ evs2, r)
    | (evs, Outcome.err m) => (evs, Outcome.err m)
    | (evs, Outcome.panic m) => (evs, Outcome.panic m)

/-- Processing of one texture record (`textures.rs` lines 66-115): seek
to `t.common.address` and read the `EXGeoTexture` there (`parseTexture`,
with `none` modelling the read failure that
`.expect("Failed to read basetexture")` turns into a panic); call the
codec's `get_data_size` (panicking via `.expect("Invalid texture
format?")` on `none`); then `data.clear()` and `data.resize(size, 0)`
where `size` is the stored `data_size` when present and the calculated
size otherwise; finally process every frame. -/
def processTexture (codec : TextureCodec) (fileBytes : List Nat)
    (parseTexture : Nat → Option EXGeoTexture) (endian : Endian)
    (t : TextureListEntry) : List Event × Outcome Unit :=
  match parseTexture t.address with
  | none =>
    ([Event.seek t.address, Event.readTyped t.address endian],
      Outcome.panic ("Failed to read basetexture"))
  | some tex =>
    match codec.get_data_size tex.width tex.height tex.depth tex.format with
    | none =>
      ([Event.seek t.address, Event.readTyped t.address endian,
        Event.calcSize tex.width tex.height tex.depth tex.format],
        Outcome.panic ("Invalid texture format?"))
    | some calculated_size =>
      let size := tex.data_size.getD calculated_size
      match processFramesAux codec fileBytes tex t.hashcode size 0
          (List.replicate size 0) tex.frame_offsets with
      | (evs, r) =>
        ([Event.seek t.address, Event.readTyped t.address endian,
          Event.calcSize tex.width tex.height tex.depth tex.format,
          Event.alloc size] ++ evs, r)

/-- The `for t in header.texture_list.data.iter()` loop; a record error
or panic aborts the whole command. -/
def texturesLoop (codec : TextureCodec) (fileBytes : List Nat)
    (parseTexture : Nat → Option EXGeoTexture) (endian : Endian) :
    List TextureListEntry → List Event × Outcome Unit
  | [] => ([], Outcome.ok ())
  | t :: rest =>
    match processTexture codec fileBytes parseTexture endian t with
    | (evs, Outcome.ok _) =>
      match texturesLoop codec fileBytes parseTexture endian rest with
      | (evs2, r) => (evs ++ evs2, r)
    | (evs, Outcome.err m) => (evs, Outcome.err m)
    | (evs, Outcome.panic m) => (evs, Outcome.panic m)

/-- Endianness detection (`textures.rs` lines 34-38): the first byte of
the file is read (`unwrap` panics on an empty file); the reserved
marker value `0x47` selects big-endian, any other value little-endian. -/
def detectEndian (fileBytes : List Nat) : Outcome Endian :=
  match fileBytes with
  | [] => Outcome.panic ("called unwrap on a failed read")
  | b :: _ =>
    Outcome.ok (if b = 0x47 then Endian.big else Endian.little)

/-- The texture extraction command (`textures.rs` `execute_command`):
detect the endianness from the marker byte, re-read the header from
offset 0 with that endianness (`parseHeader`, with `none` modelling the
failure that `.expect("Failed to read header")` turns into a panic),
then run the texture loop, every record read using the single detected
endianness. -/
def texturesCommand (codec : TextureCodec) (fileBytes : List Nat)
    (parseHeader : Endian → Option EXGeoHeader)
    (parseTexture : Nat → Option EXGeoTexture) : List Event × Outcome Unit :=
  match detectEndian fileBytes with
  | Outcome.panic m => ([], Outcome.panic m)
  | Outcome.err m => ([], Outcome.err m)
  | Outcome.ok endian =>
    match parseHeader endian with
    | none =>
      ([Event.readTyped 0 endian], Outcome.panic ("Failed to read header"))
    | some header =>
      match texturesLoop codec fileBytes parseTexture endian
          header.texture_list with
      | (evs, r) => (Event.readTyped 0 endian :: evs, r)

/-! ## Concrete sample inputs used by witnesses -/

/-- A one-entry reference-pointer list pointing at offset 100. -/
def refsW : List RefPointer := [⟨100⟩]

/-- An entity reader with a mapzone entity at offset 100. -/
def entReadW : Nat → Option EXGeoEntity :=
  fun a => if a = 100 then some (EXGeoEntity.mapZone ⟨7⟩) else none

/-- A zone descriptor referring to reference index 0. -/
def zoneW : ZoneDesc := ⟨0⟩

/-- A header with an empty map list. -/
def emptyMapHeader : EXGeoHeader :=
  { version := 182, texture_list := [], map_list := [], refpointer_list := [] }

/-- A one-entry trigger type table: type 1, subtype 0 (the "no
subtype" value). -/
def trigTypesW : List EXGeoTriggerType := [⟨1, 0⟩]

/-- A trigger using type index 0. -/
def trigW : TriggerWrapper :=
  { link_ref := 0
    trigger :=
      { type_index := 0, debug := 0, game_flags := 0, trig_flags := 0
        position := 0, rotation := 0, scale := 0, data := [], links := [] } }

/-! ## C2 — reference resolution -/

/-- C2 counterexample: resolving an out-of-range reference index does
not fail with an `InvalidReference` error; `maps.rs` line 82 indexes
the slice directly, which panics. -/
theorem resolve_out_of_range_panic_not_error :
    resolveRef ([] : List RefPointer) 0 = Outcome.panic ("index out of bounds") ∧
    resolveRef ([] : List RefPointer) 0 ≠ Outcome.err ("InvalidReference") := by
  constructor
  · rfl
  · intro h
    exact Outcome.noConfusion h

/-- C2 (amended): for every in-range index the resolver returns the
address stored at `refpointer_list[i]`; for every out-of-range index it
panics with an index-out-of-bounds panic (not an `InvalidReference`
error). -/
theorem resolve_ref_semantics (refpointer_list : List RefPointer) (i : Nat) :
    (∀ rp, refpointer_list[i]? = some rp →
      resolveRef refpointer_list i = Outcome.ok rp.address) ∧
    (refpointer_list.length ≤ i →
      resolveRef refpointer_list i = Outcome.panic ("index out of bounds")) := by
  constructor
  · intro rp h
    simp [resolveRef, h]
  · intro h
    simp [resolveRef, List.getElem?_eq_none h]

/-- C2 witness: the amended resolver semantics at a concrete table. -/
theorem resolve_ref_semantics_witness :
    resolveRef [RefPointer.mk 5] 0 = Outcome.ok 5 ∧
    resolveRef [RefPointer.mk 5] 1 = Outcome.panic ("index out of bounds") :=
  ⟨(resolve_ref_semantics [RefPointer.mk 5] 0).1 (RefPointer.mk 5) rfl,
    (resolve_ref_semantics [RefPointer.mk 5] 1).2 (by decide)⟩

/-! ## C4 — zone assembly accepts only MapZone entities -/

/-- C4: for a zone whose reference index resolves to `rp`, the
assembler decodes the entity at `rp.address`; a `MapZone` result is
accepted with exactly the directly-decoded content, any other variant
fails with the fatal mapzone error (`bail!`), and a zone error aborts
the processing of the remaining zones of the map. -/
theorem zone_assembly_requires_mapzone (refpointer_list : List RefPointer)
    (readEntity : Nat → Option EXGeoEntity) (z : ZoneDesc) (rp : RefPointer)
    (hr : refpointer_list[z.entity_refptr]? = some rp) :
    (∀ mz, readEntity rp.address = some (EXGeoEntity.mapZone mz) →
      processZone refpointer_list readEntity z =
        ([Event.seek rp.address], Outcome.ok mz)) ∧
    (∀ tag, readEntity rp.address = some (EXGeoEntity.other tag) →
      processZone refpointer_list readEntity z =
        ([Event.seek rp.address],
          Outcome.err ("Refptr entity does not have a mapzone entity!"))) ∧
    (∀ mz, (processZone refpointer_list readEntity z).2 = Outcome.ok mz →
      readEntity rp.address = some (EXGeoEntity.mapZone mz)) ∧
    (∀ rest msg, (processZone refpointer_list readEntity z).2 = Outcome.err msg →
      (processZones refpointer_list readEntity (z :: rest)).2 = Outcome.err msg) := by
  refine ⟨?_, ?_, ?_, ?_⟩
  · intro mz h
    simp [processZone, resolveRef, hr, h]
  · intro tag h
    simp [processZone, resolveRef, hr, h]
  · intro mz h
    simp only [processZone, resolveRef, hr] at h
    cases he : readEntity rp.address with
    | none => rw [he] at h; simp at h
    | some ent =>
      rw [he] at h
      cases ent with
      | mapZone mz2 => simp at h; rw [h]
      | other tag => simp at h
  · intro rest msg h
    cases hz : processZone refpointer_list readEntity z with
    | mk evs r =>
      rw [hz] at h
      simp at h
      subst h
      simp [processZones, hz]

/-- C4 witness: a concrete zone whose reference resolves to a mapzone
entity at offset 100. -/
theorem zone_assembly_requires_mapzone_witness :
    (∀ mz, entReadW 100 = some (EXGeoEntity.mapZone mz) →
      processZone refsW entReadW zoneW = ([Event.seek 100], Outcome.ok mz)) ∧
    (∀ tag, entReadW 100 = some (EXGeoEntity.other tag) →
      processZone refsW entReadW zoneW =
        ([Event.seek 100],
          Outcome.err ("Refptr entity does not have a mapzone entity!"))) ∧
    (∀ mz, (processZone refsW entReadW zoneW).2 = Outcome.ok mz →
      entReadW 100 = some (EXGeoEntity.mapZone mz)) ∧
    (∀ rest msg, (processZone refsW entReadW zoneW).2 = Outcome.err msg →
      (processZones refsW entReadW (zoneW :: rest)).2 = Outcome.err msg) :=
  zone_assembly_requires_mapzone refsW entReadW zoneW (RefPointer.mk 100) rfl

/-! ## C5 — trigger type/subtype resolution -/

/-- C5: when the type table lookup at `type_index` yields `tt`, the
resolved trigger's subtype is absent exactly when `tt.trig_subtype` is
`0` or `0x42000001` and is resolved from the table entry otherwise;
moreover bulk trigger processing resolves each position of the list
purely from that trigger and the type table, independent of the other
triggers. -/
theorem trigger_resolution_spec (trigger_types : List EXGeoTriggerType)
    (t : TriggerWrapper) (tt : EXGeoTriggerType)
    (ht : trigger_types[t.trigger.type_index]? = some tt) :
    (∃ trig, resolveTrigger trigger_types t = Outcome.ok trig ∧
      trig.ttype = "Trig_" ++ toString tt.trig_type ∧
      (trig.tsubtype = none ↔
        (tt.trig_subtype = 0 ∨ tt.trig_subtype = 0x42000001)) ∧
      ((tt.trig_subtype ≠ 0 ∧ tt.trig_subtype ≠ 0x42000001) →
        trig.tsubtype = some ("TrigSub_" ++ toString tt.trig_subtype))) ∧
    (∀ l res, processTriggers trigger_types l = Outcome.ok res →
      ∀ (i : Nat) tw, l[i]? = some tw →
        ∃ u, res[i]? = some u ∧ resolveTrigger trigger_types tw = Outcome.ok u) := by
  constructor
  · unfold resolveTrigger
    rw [ht]
    by_cases hc : tt.trig_subtype ≠ 0 ∧ tt.trig_subtype ≠ 0x42000001
    · refine ⟨_, rfl, rfl, ?_, ?_⟩
      · dsimp only
        rw [if_pos hc]
        exact ⟨fun h => Option.noConfusion h, fun h => (h.elim hc.1 hc.2).elim⟩
      · intro _
        dsimp only
        rw [if_pos hc]
    · have hd : tt.trig_subtype = 0 ∨ tt.trig_subtype = 0x42000001 := by
        by_cases h0 : tt.trig_subtype = 0
        · exact Or.inl h0
        · by_cases h1 : tt.trig_subtype = 0x42000001
          · exact Or.inr h1
          · exact absurd ⟨h0, h1⟩ hc
      refine ⟨_, rfl, rfl, ?_, ?_⟩
      · dsimp only
        rw [if_neg hc]
        exact ⟨fun _ => hd, fun _ => rfl⟩
      · intro hcc
        exact absurd hcc hc
  · intro l
    induction l with
    | nil =>
      intro res h i tw hi
      simp at hi
    | cons hd tl ih =>
      intro res h i tw hi
      simp only [processTriggers] at h
      cases hr : resolveTrigger trigger_types hd <;> rw [hr] at h
      case err m => simp at h
      case panic m => simp at h
      case ok trig =>
        cases hp : processTriggers trigger_types tl <;> rw [hp] at h
        case err m => simp at h
        case panic m => simp at h
        case ok l2 =>
          simp only [Outcome.ok.injEq] at h
          subst h
          cases i with
          | zero =>
            simp only [List.getElem?_cons_zero, Option.some.injEq] at hi
            subst hi
            exact ⟨trig, by simp, hr⟩
          | succ n =>
            simp only [List.getElem?_cons_succ] at hi
            obtain ⟨u, hu, hru⟩ := ih l2 hp n tw hi
            exact ⟨u, by simpa using hu, hru⟩

/-- C5 witness: a concrete one-entry type table with subtype 0 (the
"no subtype" value) and a trigger using index 0. -/
theorem trigger_resolution_spec_witness :
    (∃ trig, resolveTrigger trigTypesW trigW = Outcome.ok trig ∧
      trig.ttype = "Trig_" ++ toString (1 : Nat) ∧
      (trig.tsubtype = none ↔ ((0 : Nat) = 0 ∨ (0 : Nat) = 0x42000001)) ∧
      (((0 : Nat) ≠ 0 ∧ (0 : Nat) ≠ 0x42000001) →
        trig.tsubtype = some ("TrigSub_" ++ toString (0 : Nat)))) ∧
    (∀ l res, processTriggers trigTypesW l = Outcome.ok res →
      ∀ (i : Nat) tw, l[i]? = some tw →
        ∃ u, res[i]? = some u ∧ resolveTrigger trigTypesW tw = Outcome.ok u) :=
  trigger_resolution_spec trigTypesW trigW (EXGeoTriggerType.mk 1 0) rfl

/-! ## C10 — empty map list -/

/-- C10: when the parsed header's map list is empty, the map command
warns and returns `Ok(())` immediately: its whole trace is the single
warning, so no map is decoded, no output file is written and no error
is produced. -/
theorem empty_map_list_warns_ok (header : EXGeoHeader)
    (readEntity : Nat → Option EXGeoEntity)
    (readMap : Nat → Option EXGeoMap) (entitiesOutcome : Outcome Unit)
    (h : header.map_list = []) :
    mapsCommand header readEntity readMap entitiesOutcome =
      ([Event.warn], Outcome.ok ()) := by
  simp [mapsCommand, h]

/-- C10 witness: the empty-map-list early return on a concrete header. -/
theorem empty_map_list_warns_ok_witness :
    mapsCommand emptyMapHeader (fun _ => none) (fun _ => none) (Outcome.ok ()) =
      ([Event.warn], Outcome.ok ()) :=
  empty_map_list_warns_ok emptyMapHeader (fun _ => none) (fun _ => none)
    (Outcome.ok ()) rfl

/-! ## Texture observation helpers and sample inputs -/

/-- The decoded-frame observations of a trace, in trace order. -/
def decodedFrames (trace : List Event) : List (Nat × List Nat) :=
  trace.filterMap fun e =>
    match e with
    | Event.frameDecoded i buf => some (i, buf)
    | _ => none

/-- Whether an event is compatible with every typed record read using
endianness `e` (non-read events trivially are). -/
def usesEndian (e : Endian) : Event → Bool
  | Event.readTyped _ e2 => e2 == e
  | _ => true

/-- A codec whose decode copies the output buffer through unchanged. -/
def idCodec : TextureCodec where
  get_data_size := fun w h d _ => some (w * h * d * 4)
  decode := fun _ output _ _ _ _ => some output
  decode_len := fun _ output _ _ _ _ res h => by
    injection h with h2
    rw [h2]

/-- A codec whose decode always fails. -/
def noneCodec : TextureCodec where
  get_data_size := fun w h d _ => some (w * h * d * 4)
  decode := fun _ _ _ _ _ _ => none
  decode_len := fun _ _ _ _ _ _ _ h => Option.noConfusion h

/-- A 1x1x1 texture whose stored data size is 4 and whose single frame
sits at absolute offset 100. -/
def texC1 : EXGeoTexture :=
  { width := 1, height := 1, depth := 1, format := 0
    data_size := some 4, frame_offsets := [100] }

/-- A 10-byte file: too short for a read of 4 bytes at offset 100. -/
def fbC1 : List Nat := List.replicate 10 0

/-- A texture list with one record at address 0. -/
def hdrC1 : EXGeoHeader :=
  { version := 182, texture_list := [⟨0, 1⟩], map_list := [], refpointer_list := [] }

/-- Header parser returning `hdrC1`. -/
def parseHeaderC1 : Endian → Option EXGeoHeader := fun _ => some hdrC1

/-- Texture parser returning `texC1` at every address. -/
def parseTexC1 : Nat → Option EXGeoTexture := fun _ => some texC1

/-- A 200-byte file (large enough for every read of `texC1`). -/
def fbC3 : List Nat := List.replicate 200 0

/-- First texture-list entry of the sibling-abort counterexample. -/
def entry1C3 : TextureListEntry := ⟨0, 1⟩

/-- Second texture-list entry of the sibling-abort counterexample. -/
def entry2C3 : TextureListEntry := ⟨50, 2⟩

/-- A texture list with the two entries above. -/
def hdrC3 : EXGeoHeader :=
  { version := 182, texture_list := [entry1C3, entry2C3], map_list := []
    refpointer_list := [] }

/-- Header parser returning `hdrC3`. -/
def parseHeaderC3 : Endian → Option EXGeoHeader := fun _ => some hdrC3

/-! ## C1 — reads are not bounds-checked before being issued -/

/-- C1 counterexample: a 10-byte file whose single texture record
declares a frame at offset 100 with a 4-byte read; the `read_exact`
call is issued (a `readAttempt` event appears in the trace) even though
the requested range `100 + 4` exceeds the file length, so no bounds
check against the file size precedes the read. -/
theorem read_beyond_eof_attempted :
    Event.readAttempt 100 4 ∈
      (texturesCommand idCodec fbC1 parseHeaderC1 parseTexC1).1 ∧
    fbC1.length < 100 + 4 := by decide

/-- C1 (amended): the texture driver issues every frame read
unconditionally, with no prior check against the file length; an
out-of-range read is detected only by the `read_exact` call itself
failing, which happens exactly when the requested range extends past
the end of the file. -/
theorem reads_not_prechecked (fileBytes : List Nat) (off len : Nat) :
    (readExact fileBytes off len = none ↔ fileBytes.length < off + len) ∧
    ∀ codec tex hashcode dataSize data i fo,
      Event.readAttempt fo dataSize ∈
        (processFrame codec fileBytes tex hashcode dataSize data i fo).1 := by
  constructor
  · unfold readExact
    split <;> rename_i h <;> simp <;> omega
  · intro codec tex hashcode dataSize data i fo
    simp only [processFrame]
    split
    · by_cases hr : (readExact fileBytes fo dataSize).isNone <;> simp [hr]
    · split <;>
        by_cases hr : (readExact fileBytes fo dataSize).isNone <;> simp [hr]

/-! ## C9 — a failed frame read is only reported; decode and save still run -/

/-- C9: when `read_exact` fails for a frame, the failure is printed
(`reportError`) and processing of that very frame continues: the
platform decode runs on the raw-bytes buffer in its prior state `data`
(zero-filled for the first frame, or holding the previous frame's
bytes, since the buffer is reused across frames) and the resulting
image is still saved. -/
theorem frame_read_failure_still_saves (codec : TextureCodec)
    (fileBytes : List Nat) (tex : EXGeoTexture) (hashcode dataSize : Nat)
    (data : List Nat) (i fo : Nat) (decoded img : List Nat)
    (hread : readExact fileBytes fo dataSize = none)
    (hdec : codec.decode data
      (List.replicate (tex.width * tex.height * tex.depth * 4) 0)
      tex.width tex.height tex.depth tex.format = some decoded)
    (himg : rgbaImageFromRaw tex.width tex.height decoded = some img) :
    processFrame codec fileBytes tex hashcode dataSize data i fo =
      ([Event.seek fo, Event.readAttempt fo dataSize,
        Event.reportError hashcode, Event.frameDecoded i decoded,
        Event.save hashcode i img], Outcome.ok data) := by
  simp only [processFrame, hread, Option.getD_none, Option.isNone_none]
  simp [hdec, himg]

/-- C9 witness: an empty file, so the frame read at offset 5 fails; the
identity codec still decodes the zero-filled buffer and the frame is
saved. -/
theorem frame_read_failure_still_saves_witness :
    processFrame idCodec [] texC1 9 4 (List.replicate 4 0) 0 5 =
      ([Event.seek 5, Event.readAttempt 5 4, Event.reportError 9,
        Event.frameDecoded 0 (List.replicate 4 0),
        Event.save 9 0 (List.replicate 4 0)], Outcome.ok (List.replicate 4 0)) :=
  frame_read_failure_still_saves idCodec [] texC1 9 4 (List.replicate 4 0) 0 5
    (List.replicate 4 0) (List.replicate 4 0) (by decide) (by decide) (by decide)

/-! ## C3 — a failing record aborts the whole command -/

set_option maxRecDepth 4000 in
/-- C3 counterexample: two texture records; the decode of the first
record's frame fails (`?` propagates the error), the command aborts
with that error, and the second record at address 50 is never visited
(no seek to it appears in the trace), so sibling records do not
continue to decode. -/
theorem record_error_aborts_siblings :
    (texturesCommand noneCodec fbC3 parseHeaderC3 parseTexC1).2 =
      Outcome.err ("Failed to decode texture") ∧
    Event.seek 50 ∉ (texturesCommand noneCodec fbC3 parseHeaderC3 parseTexC1).1 := by
  decide

/-- C3 (amended): a fatal error while decoding one record aborts the
entire extraction command: the loop stops at the failing record with
its error (or panic), and the remaining sibling records are not
processed; only when a record processes successfully does the loop
continue with its siblings.  (The sole isolated failure is a frame's
`read_exact` error, which is reported and does not fail the record.) -/
theorem texture_loop_abort_semantics (codec : TextureCodec)
    (fileBytes : List Nat) (parseTexture : Nat → Option EXGeoTexture)
    (endian : Endian) (t : TextureListEntry) (rest : List TextureListEntry) :
    ((processTexture codec fileBytes parseTexture endian t).2 = Outcome.ok () →
      texturesLoop codec fileBytes parseTexture endian (t :: rest) =
        ((processTexture codec fileBytes parseTexture endian t).1 ++
          (texturesLoop codec fileBytes parseTexture endian rest).1,
          (texturesLoop codec fileBytes parseTexture endian rest).2)) ∧
    (∀ msg, (processTexture codec fileBytes parseTexture endian t).2 = Outcome.err msg →
      texturesLoop codec fileBytes parseTexture endian (t :: rest) =
        ((processTexture codec fileBytes parseTexture endian t).1,
          Outcome.err msg)) ∧
    (∀ msg, (processTexture codec fileBytes parseTexture endian t).2 = Outcome.panic msg →
      texturesLoop codec fileBytes parseTexture endian (t :: rest) =
        ((processTexture codec fileBytes parseTexture endian t).1,
          Outcome.panic msg)) := by
  cases hpt : processTexture codec fileBytes parseTexture endian t with
  | mk evs r =>
    refine ⟨?_, ?_, ?_⟩
    · intro h
      simp only [Prod.snd] at h
      subst h
      cases hl : texturesLoop codec fileBytes parseTexture endian rest with
      | mk evs2 r2 =>
        simp [texturesLoop, hpt, hl]
    · intro msg h
      simp only [Prod.snd] at h
      subst h
      simp [texturesLoop, hpt]
    · intro msg h
      simp only [Prod.snd] at h
      subst h
      simp [texturesLoop, hpt]

/-- C3 witness: the abort semantics applied at the failing concrete
input of the counterexample (decode of the first record fails, so the
loop stops with its error and never reaches the second record). -/
theorem texture_loop_abort_semantics_witness :
    texturesLoop noneCodec fbC3 parseTexC1 Endian.little [entry1C3, entry2C3] =
      ((processTexture noneCodec fbC3 parseTexC1 Endian.little entry1C3).1,
        Outcome.err ("Failed to decode texture")) :=
  (texture_loop_abort_semantics noneCodec fbC3 parseTexC1 Endian.little
    entry1C3 [entry2C3]).2.1 ("Failed to decode texture") (by decide)

/-! ## C7 — data size: stored value takes precedence, calculation precedes allocation -/

/-- Helper: the trace and outcome of one record once the texture is
parsed and the codec accepts the format. -/
theorem processTexture_run (codec : TextureCodec) (fileBytes : List Nat)
    (parseTexture : Nat → Option EXGeoTexture) (endian : Endian)
    (t : TextureListEntry) (tex : EXGeoTexture) (cs : Nat)
    (hp : parseTexture t.address = some tex)
    (hc : codec.get_data_size tex.width tex.height tex.depth tex.format = some cs) :
    processTexture codec fileBytes parseTexture endian t =
      ([Event.seek t.address, Event.readTyped t.address endian,
        Event.calcSize tex.width tex.height tex.depth tex.format,
        Event.alloc (tex.data_size.getD cs)] ++
        (processFramesAux codec fileBytes tex t.hashcode (tex.data_size.getD cs) 0
          (List.replicate (tex.data_size.getD cs) 0) tex.frame_offsets).1,
        (processFramesAux codec fileBytes tex t.hashcode (tex.data_size.getD cs) 0
          (List.replicate (tex.data_size.getD cs) 0) tex.frame_offsets).2) := by
  simp only [processTexture, hp, hc]

/-- C7: with `cs` the codec's calculated size, the raw-bytes buffer is
allocated with the record's stored `data_size` when present and with
`cs` otherwise (`Option.getD`), and the size calculation
(`calcSize`, the `get_data_size` call) appears in the trace strictly
before the allocation (`alloc`) in both cases. -/
theorem data_size_precedence (codec : TextureCodec) (fileBytes : List Nat)
    (parseTexture : Nat → Option EXGeoTexture) (endian : Endian)
    (t : TextureListEntry) (tex : EXGeoTexture) (cs : Nat)
    (hp : parseTexture t.address = some tex)
    (hc : codec.get_data_size tex.width tex.height tex.depth tex.format = some cs) :
    ∃ rest, (processTexture codec fileBytes parseTexture endian t).1 =
      Event.seek t.address :: Event.readTyped t.address endian ::
      Event.calcSize tex.width tex.height tex.depth tex.format ::
      Event.alloc (tex.data_size.getD cs) :: rest := by
  rw [processTexture_run codec fileBytes parseTexture endian t tex cs hp hc]
  exact ⟨_, rfl⟩

/-- C7 witness: the concrete record `texC1` stores `data_size = 4`, so
the allocation uses 4 even though the calculation still precedes it. -/
theorem data_size_precedence_witness :
    ∃ rest, (processTexture idCodec fbC1 parseTexC1 Endian.little entry1C3).1 =
      Event.seek entry1C3.address ::
      Event.readTyped entry1C3.address Endian.little ::
      Event.calcSize texC1.width texC1.height texC1.depth texC1.format ::
      Event.alloc (texC1.data_size.getD 4) :: rest :=
  data_size_precedence idCodec fbC1 parseTexC1 Endian.little entry1C3 texC1 4
    rfl rfl

/-! ## C6 — one output buffer of length w*h*d*4 per frame, in order -/

/-- Trace observation splits over trace concatenation. -/
theorem decodedFrames_append (a b : List Event) :
    decodedFrames (a ++ b) = decodedFrames a ++ decodedFrames b := by
  simp [decodedFrames]

/-- Helper: a successfully processed frame contributes exactly one
decoded buffer, carrying its frame index, of length `w*h*d*4`. -/
theorem processFrame_ok_frames (codec : TextureCodec) (fileBytes : List Nat)
    (tex : EXGeoTexture) (hashcode dataSize : Nat) (data : List Nat)
    (i fo : Nat) (evs : List Event) (dataNext : List Nat)
    (h : processFrame codec fileBytes tex hashcode dataSize data i fo =
      (evs, Outcome.ok dataNext)) :
    ∃ decoded, decodedFrames evs = [(i, decoded)] ∧
      decoded.length = tex.width * tex.height * tex.depth * 4 := by
  simp only [processFrame] at h
  split at h
  · simp at h
  · rename_i decoded hdec
    split at h
    · simp at h
    · rename_i img himg
      simp only [Prod.mk.injEq] at h
      obtain ⟨h1, _⟩ := h
      subst h1
      refine ⟨decoded, ?_, ?_⟩
      · by_cases hr : (readExact fileBytes fo dataSize).isNone <;>
          simp [decodedFrames, hr]
      · have hlen := codec.decode_len _ _ _ _ _ _ _ hdec
        simpa using hlen

/-- Helper: a successful frame loop starting at index `i` contributes
one decoded buffer per frame offset, with indices `i, i+1, ...` in
order and every buffer of length `w*h*d*4`. -/
theorem processFramesAux_ok_frames (codec : TextureCodec)
    (fileBytes : List Nat) (tex : EXGeoTexture) (hashcode dataSize : Nat) :
    ∀ (fos : List Nat) (i : Nat) (data : List Nat) (evs : List Event),
      processFramesAux codec fileBytes tex hashcode dataSize i data fos =
        (evs, Outcome.ok ()) →
      (decodedFrames evs).map Prod.fst = List.range' i fos.length ∧
      ∀ p ∈ decodedFrames evs,
        p.2.length = tex.width * tex.height * tex.depth * 4 := by
  intro fos
  induction fos with
  | nil =>
    intro i data evs h
    simp only [processFramesAux, Prod.mk.injEq] at h
    obtain ⟨h1, _⟩ := h
    subst h1
    simp [decodedFrames]
  | cons fo rest ih =>
    intro i data evs h
    simp only [processFramesAux] at h
    split at h
    · rename_i evs1 dataNext heq
      cases heq2 : processFramesAux codec fileBytes tex hashcode dataSize
          (i + 1) dataNext rest with
      | mk evs2 r =>
        rw [heq2] at h
        simp only [Prod.mk.injEq, Prod.fst, Prod.snd] at h
        obtain ⟨h1, h2⟩ := h
        subst h1
        subst h2
        obtain ⟨decoded, hA1, hA2⟩ :=
          processFrame_ok_frames codec fileBytes tex hashcode dataSize data
            i fo evs1 dataNext heq
        obtain ⟨hB1, hB2⟩ := ih (i + 1) dataNext evs2 heq2
        constructor
        · simp [decodedFrames_append, hA1, hB1, List.range']
        · intro p hp
          rw [decodedFrames_append] at hp
          rcases List.mem_append.mp hp with hp1 | hp2
          · rw [hA1] at hp1
            simp only [List.mem_singleton] at hp1
            subst hp1
            exact hA2
          · exact hB2 p hp2
    · rename_i evs1 m heq
      simp at h
    · rename_i evs1 m heq
      simp at h

/-- C6: when a texture record processes successfully, the trace
contains exactly one decoded output buffer per entry of
`frame_offsets`, carrying the frame indices `0, ..., K-1` in declared
order, and every such buffer has length exactly
`width * height * depth * 4`. -/
theorem texture_frame_buffers (codec : TextureCodec) (fileBytes : List Nat)
    (parseTexture : Nat → Option EXGeoTexture) (endian : Endian)
    (t : TextureListEntry) (tex : EXGeoTexture) (cs : Nat)
    (hp : parseTexture t.address = some tex)
    (hc : codec.get_data_size tex.width tex.height tex.depth tex.format = some cs)
    (hok : (processTexture codec fileBytes parseTexture endian t).2 = Outcome.ok ()) :
    (decodedFrames (processTexture codec fileBytes parseTexture endian t).1).map
      Prod.fst = List.range tex.frame_offsets.length ∧
    ∀ p ∈ decodedFrames (processTexture codec fileBytes parseTexture endian t).1,
      p.2.length = tex.width * tex.height * tex.depth * 4 := by
  rw [processTexture_run codec fileBytes parseTexture endian t tex cs hp hc] at hok ⊢
  simp only [Prod.snd] at hok
  cases haux : processFramesAux codec fileBytes tex t.hashcode
      (tex.data_size.getD cs) 0 (List.replicate (tex.data_size.getD cs) 0)
      tex.frame_offsets with
  | mk evs r =>
    rw [haux] at hok
    simp only [Prod.snd] at hok
    subst hok
    obtain ⟨h1, h2⟩ := processFramesAux_ok_frames codec fileBytes tex
      t.hashcode (tex.data_size.getD cs) tex.frame_offsets 0
      (List.replicate (tex.data_size.getD cs) 0) evs haux
    constructor
    · simp only [Prod.fst]
      rw [decodedFrames_append]
      have hpre : decodedFrames
          [Event.seek t.address, Event.readTyped t.address endian,
            Event.calcSize tex.width tex.height tex.depth tex.format,
            Event.alloc (tex.data_size.getD cs)] = [] := by
        simp [decodedFrames]
      rw [hpre]
      simpa [List.range_eq_range'] using h1
    · intro p hp2
      simp only [Prod.fst] at hp2
      rw [decodedFrames_append] at hp2
      rcases List.mem_append.mp hp2 with hx | hx
      · simp [decodedFrames] at hx
      · exact h2 p hx

/-- A two-frame 1x1 texture with no stored size: the calculated size 4
is used. -/
def texC6 : EXGeoTexture :=
  { width := 1, height := 1, depth := 1, format := 0
    data_size := none, frame_offsets := [0, 4] }

/-- An 8-byte file holding both frames of `texC6`. -/
def fbC6 : List Nat := List.replicate 8 0

/-- Texture parser returning `texC6` at every address. -/
def parseTexC6 : Nat → Option EXGeoTexture := fun _ => some texC6

/-- C6 witness: the two-frame record decodes to exactly two buffers
with frame indices `[0, 1]`, each of length 4. -/
theorem texture_frame_buffers_witness :
    (decodedFrames
      (processTexture idCodec fbC6 parseTexC6 Endian.little entry1C3).1).map
      Prod.fst = List.range texC6.frame_offsets.length ∧
    ∀ p ∈ decodedFrames
        (processTexture idCodec fbC6 parseTexC6 Endian.little entry1C3).1,
      p.2.length = texC6.width * texC6.height * texC6.depth * 4 :=
  texture_frame_buffers idCodec fbC6 parseTexC6 Endian.little entry1C3 texC6 4
    rfl rfl (by decide)

/-! ## C8 — the marker byte selects the single endianness of all reads -/

/-- Helper: frame processing issues no typed record read, so its trace
is compatible with any endianness. -/
theorem processFrame_all_usesEndian (e : Endian) (codec : TextureCodec)
    (fileBytes : List Nat) (tex : EXGeoTexture) (hashcode dataSize : Nat)
    (data : List Nat) (i fo : Nat) :
    ((processFrame codec fileBytes tex hashcode dataSize data i fo).1).all
      (usesEndian e) = true := by
  simp only [processFrame]
  split
  · by_cases hr : (readExact fileBytes fo dataSize).isNone <;>
      simp [usesEndian, hr]
  · split <;> by_cases hr : (readExact fileBytes fo dataSize).isNone <;>
      simp [usesEndian, hr]

/-- Helper: the frame loop issues no typed record read. -/
theorem processFramesAux_all_usesEndian (e : Endian) (codec : TextureCodec)
    (fileBytes : List Nat) (tex : EXGeoTexture) (hashcode dataSize : Nat) :
    ∀ (fos : List Nat) (i : Nat) (data : List Nat),
      ((processFramesAux codec fileBytes tex hashcode dataSize i data fos).1).all
        (usesEndian e) = true := by
  intro fos
  induction fos with
  | nil =>
    intro i data
    simp [processFramesAux]
  | cons fo rest ih =>
    intro i data
    simp only [processFramesAux]
    split
    · rename_i evs1 dataNext heq
      cases heq2 : processFramesAux codec fileBytes tex hashcode dataSize
          (i + 1) dataNext rest with
      | mk evs2 r =>
        have h1 := processFrame_all_usesEndian e codec fileBytes tex hashcode
          dataSize data i fo
        rw [heq] at h1
        simp only [Prod.fst] at h1
        have h2 := ih (i + 1) dataNext
        rw [heq2] at h2
        simp only [Prod.fst] at h2
        simp [List.all_append, h1, h2]
    · rename_i evs1 m heq
      have h1 := processFrame_all_usesEndian e codec fileBytes tex hashcode
        dataSize data i fo
      rw [heq] at h1
      simpa using h1
    · rename_i evs1 m heq
      have h1 := processFrame_all_usesEndian e codec fileBytes tex hashcode
        dataSize data i fo
      rw [heq] at h1
      simpa using h1

/-- Helper: every typed record read of one texture record uses the
endianness the record processing was invoked with. -/
theorem processTexture_all_usesEndian (e : Endian) (codec : TextureCodec)
    (fileBytes : List Nat) (parseTexture : Nat → Option EXGeoTexture)
    (t : TextureListEntry) :
    ((processTexture codec fileBytes parseTexture e t).1).all
      (usesEndian e) = true := by
  simp only [processTexture]
  split
  · simp [usesEndian]
  · rename_i tex hp
    split
    · simp [usesEndian]
    · rename_i cs hc
      cases haux : processFramesAux codec fileBytes tex t.hashcode
          (tex.data_size.getD cs) 0 (List.replicate (tex.data_size.getD cs) 0)
          tex.frame_offsets with
      | mk evs r =>
        have h2 := processFramesAux_all_usesEndian e codec fileBytes tex
          t.hashcode (tex.data_size.getD cs) tex.frame_offsets 0
          (List.replicate (tex.data_size.getD cs) 0)
        rw [haux] at h2
        simp only [Prod.fst] at h2
        simp [usesEndian, List.all_append, h2]

/-- Helper: every typed record read of the texture loop uses the
endianness the loop was invoked with. -/
theorem texturesLoop_all_usesEndian (e : Endian) (codec : TextureCodec)
    (fileBytes : List Nat) (parseTexture : Nat → Option EXGeoTexture) :
    ∀ ts, ((texturesLoop codec fileBytes parseTexture e ts).1).all
      (usesEndian e) = true := by
  intro ts
  induction ts with
  | nil => simp [texturesLoop]
  | cons t rest ih =>
    simp only [texturesLoop]
    split
    · rename_i evs1 u heq
      cases heq2 : texturesLoop codec fileBytes parseTexture e rest with
      | mk evs2 r =>
        have h1 := processTexture_all_usesEndian e codec fileBytes parseTexture t
        rw [heq] at h1
        simp only [Prod.fst] at h1
        have h2 := ih
        rw [heq2] at h2
        simp only [Prod.fst] at h2
        simp [List.all_append, h1, h2]
    · rename_i evs1 m heq
      have h1 := processTexture_all_usesEndian e codec fileBytes parseTexture t
      rw [heq] at h1
      simpa using h1
    · rename_i evs1 m heq
      have h1 := processTexture_all_usesEndian e codec fileBytes parseTexture t
      rw [heq] at h1
      simpa using h1

/-- C8: the leading marker byte deterministically selects the
endianness (`0x47` gives big-endian, any other value little-endian),
and every typed record read the texture command issues — the header
read and every texture record read — uses that single endianness. -/
theorem endian_marker_selects (codec : TextureCodec) (fileBytes : List Nat)
    (parseHeader : Endian → Option EXGeoHeader)
    (parseTexture : Nat → Option EXGeoTexture) (b : Nat) (rest : List Nat)
    (hfb : fileBytes = b :: rest) :
    detectEndian fileBytes =
      Outcome.ok (if b = 0x47 then Endian.big else Endian.little) ∧
    ((texturesCommand codec fileBytes parseHeader parseTexture).1).all
      (usesEndian (if b = 0x47 then Endian.big else Endian.little)) = true := by
  subst hfb
  refine ⟨rfl, ?_⟩
  simp only [texturesCommand, detectEndian]
  split
  · simp [usesEndian]
  · rename_i header hph
    cases heq : texturesLoop codec (b :: rest) parseTexture
        (if b = 0x47 then Endian.big else Endian.little)
        header.texture_list with
    | mk evs r =>
      have h1 := texturesLoop_all_usesEndian
        (if b = 0x47 then Endian.big else Endian.little) codec (b :: rest)
        parseTexture header.texture_list
      rw [heq] at h1
      simp only [Prod.fst] at h1
      simp [usesEndian, h1]

/-- C8 witness: a file starting with the reserved marker `0x47` is
read big-endian throughout. -/
theorem endian_marker_selects_witness :
    detectEndian [0x47] =
      Outcome.ok (if (0x47 : Nat) = 0x47 then Endian.big else Endian.little) ∧
    ((texturesCommand idCodec [0x47] parseHeaderC1 parseTexC1).1).all
      (usesEndian (if (0x47 : Nat) = 0x47 then Endian.big else Endian.little)) = true :=
  endian_marker_selects idCodec [0x47] parseHeaderC1 parseTexC1 0x47 [] rfl

end Eurochef
